import Mathlib

/-!
# Shallow embedding of the `bias_correction` data pipeline

This file embeds the core data-preparation / scaling / training /
prediction pipeline of the repository (`process/python/data.py`,
`train.py`, `bc.py`, `predict.py`) into Lean 4 and proves the spec's
claims about it.

Modelling conventions:
* numpy's float arithmetic is idealised as exact arithmetic over `ℚ`;
  a 2-D numpy array is a `List (List ℚ)` of rows (all of equal length
  for rectangular data).
* Python `dict` results returned by the pipeline entry points are
  embedded either as Lean structures (internal records whose keys are
  fixed) or, for the persisted training bundles whose exact key set the
  spec talks about, as association lists `List (String × ...)`.
* Python exceptions are `Except PipeError`; each `raise` site in the
  source gets its own constructor, and `PipeError.nameError` stands for
  the interpreter's `NameError`/`UnboundLocalError` raised when a local
  variable is read without having been assigned.  The constructor
  `PipeError.unknownMethod` stands for a dedicated "unknown method"
  error; the source contains no raise site producing it, it is in the
  taxonomy so statements can distinguish it from the errors the code
  actually raises.
* External library calls (sklearn's `train_test_split` shuffling, the
  xgboost / sklearn model fits, the metric computations) are abstracted
  as oracle parameters; the validation that `train_test_split` performs
  on a float `test_size` is modelled from its documented contract.
-/

namespace BiasCorrection

/-- Error taxonomy for the embedded pipeline.  `dimensionMismatch c`
models `Exception(f"Covariant {c} does not have the same length as fcst")`
(data.py:63); `schemaMismatch` models
`Exception("Scaler does not have consistent names")` (data.py:101);
`invalidFraction` models sklearn's `ValueError` for a float `test_size`
outside (0,1); `nameError` models Python's `NameError` on reading an
unassigned local; `unknownMethod` is a dedicated unknown-method error
that no raise site of the source produces. -/
inductive PipeError where
  | dimensionMismatch (covName : String)
  | schemaMismatch
  | invalidFraction
  | nameError
  | unknownMethod
  deriving DecidableEq

/-- The `{"names": ..., "value": ...}` dict returned by
`combine_covariants_and_fcst` (data.py:68): ordered column names plus the
row-major value array. -/
structure FeatureMatrix where
  names : List String
  value : List (List ℚ)
  deriving DecidableEq

/-- `numpy_array(cols).T` for a list `cols` of `n`-element columns: the
row-major array whose entry `(i, j)` is `cols[j][i]`. -/
def transposeRect (cols : List (List ℚ)) (n : Nat) : List (List ℚ) :=
  (List.range n).map (fun i => cols.map (fun col => col.getD i 0))

/-- Column `j` of a row-major array (used to state claims about columns). -/
def getColumn (rows : List (List ℚ)) (j : Nat) : List ℚ :=
  rows.map (fun r => r.getD j 0)

/-- `combine_covariants_and_fcst` (data.py:13-68).  The Python dict is an
insertion-ordered association list.  The loop raises on the first
covariant whose length differs from `len(fcst)`; otherwise the covariant
columns followed by `fcst` are stacked and transposed. -/
def combine_covariants_and_fcst (covariants : List (String × List ℚ))
    (fcst : List ℚ) : Except PipeError FeatureMatrix :=
  match covariants.find? (fun c => c.2.length != fcst.length) with
  | some c => .error (.dimensionMismatch c.1)
  | none =>
      .ok { names := covariants.map Prod.fst ++ ["fcst"],
            value := transposeRect (covariants.map Prod.snd ++ [fcst]) fcst.length }

/-- The scaler dict `{"min": ..., "max": ..., "names": ...}` built by
`init_scaler` (data.py:157). -/
structure Scaler where
  min : List ℚ
  max : List ℚ
  names : List String
  deriving DecidableEq

/-- The zero-range guard `range_vals[range_vals == 0] = 1` shared by
`init_scaler` (data.py:150), `apply_saved_scaler` (data.py:107) and
`reverse_scaler` (data.py:200): the per-column divisor `max - min`, with
`1` substituted when it is zero. -/
def guardRange (mn mx : ℚ) : ℚ :=
  if mx - mn = 0 then 1 else mx - mn

/-- One row of `(x_values - min_vals) / range_vals` (per-column
broadcasting of the min-max transform). -/
def scaleRow (mins maxs row : List ℚ) : List ℚ :=
  List.zipWith (fun p x => (x - p.1) / guardRange p.1 p.2) (mins.zip maxs) row

/-- One row of `scaled_values * range_vals + min_vals` (per-column
broadcasting of the inverse transform, data.py:203). -/
def unscaleRow (mins maxs row : List ℚ) : List ℚ :=
  List.zipWith (fun p s => s * guardRange p.1 p.2 + p.1) (mins.zip maxs) row

/-- Number of columns of a row-major rectangular array. -/
def numCols (rows : List (List ℚ)) : Nat :=
  (rows.headD []).length

/-- `numpy_min(x_values, axis=0)` at column `j`: fold of `min` over the
rows' `j`-th entries (undefined on an empty array in numpy; the claims
only use it under a nonemptiness hypothesis). -/
def columnMin (rows : List (List ℚ)) (j : Nat) : ℚ :=
  match rows with
  | [] => 0
  | r :: rs => rs.foldl (fun a row => Min.min a (row.getD j 0)) (r.getD j 0)

/-- `numpy_max(x_values, axis=0)` at column `j`. -/
def columnMax (rows : List (List ℚ)) (j : Nat) : ℚ :=
  match rows with
  | [] => 0
  | r :: rs => rs.foldl (fun a row => Max.max a (row.getD j 0)) (r.getD j 0)

/-- `init_scaler` (data.py:115-159): per-column min and max, zero-guarded
range, min-max scaling; returns the scaler dict and the scaled values. -/
def init_scaler (x_values : List (List ℚ)) (covariants_names : List String) :
    Scaler × List (List ℚ) :=
  let mins := (List.range (numCols x_values)).map (columnMin x_values)
  let maxs := (List.range (numCols x_values)).map (columnMax x_values)
  (⟨mins, maxs, covariants_names⟩, x_values.map (scaleRow mins maxs))

/-- `apply_saved_scaler` (data.py:71-112): when `names` is supplied the
scaler's stored names must equal it exactly, otherwise
`Exception("Scaler does not have consistent names")`; the stored min and
zero-guarded range are then applied with no refit.  When `names` is
omitted (`None`) no check at all is performed. -/
def apply_saved_scaler (x_values : List (List ℚ)) (scaler : Scaler)
    (names : Option (List String)) : Except PipeError (List (List ℚ)) :=
  match names with
  | some ns =>
      if scaler.names = ns then
        .ok (x_values.map (scaleRow scaler.min scaler.max))
      else
        .error .schemaMismatch
  | none => .ok (x_values.map (scaleRow scaler.min scaler.max))

/-- `reverse_scaler` (data.py:162-208): `scaled * range + min` with the
same zero-guarded range; with a `selected_name` only that column of the
unscaled array is returned (`Sum.inr`), otherwise the whole array
(`Sum.inl`). -/
def reverse_scaler (scaled_values : List (List ℚ)) (scaler : Scaler)
    (selected_name : Option String) : List (List ℚ) ⊕ List ℚ :=
  let unscaled := scaled_values.map (unscaleRow scaler.min scaler.max)
  match selected_name with
  | none => Sum.inl unscaled
  | some nm => Sum.inr (getColumn unscaled (scaler.names.indexOf nm))

/-- The tuple `x_train, x_test, y_train, y_test` returned by sklearn's
`train_test_split`. -/
structure SplitOut where
  x_train : List (List ℚ)
  x_test : List (List ℚ)
  y_train : List ℚ
  y_test : List ℚ
  deriving DecidableEq

/-- The pseudo-random row selection performed by sklearn's
`train_test_split` (a function of the feature rows, the targets and the
`random_state`), abstracted as an oracle. -/
abbrev SplitOracle := List (List ℚ) → List ℚ → SplitOut

/-- Modelled from the documented contract of
`sklearn.model_selection.train_test_split` (external library, called at
data.py:217): a float `test_size` must lie strictly between 0 and 1,
otherwise a `ValueError` is raised; the shuffled partition itself is the
oracle's. -/
def train_test_split (x : List (List ℚ)) (y : List ℚ) (test_size : ℚ)
    (shuffle : SplitOracle) : Except PipeError SplitOut :=
  if 0 < test_size ∧ test_size < 1 then .ok (shuffle x y) else .error .invalidFraction

/-- The dict returned by `prep_data_for_training` (data.py:227-233). -/
structure PrepOut where
  x_train : List (List ℚ)
  x_test : List (List ℚ)
  y_train : List ℚ
  y_test : List ℚ
  scaler : Scaler
  x_names : List String
  deriving DecidableEq

/-- `prep_data_for_training` (data.py:211-233): combine, split, fit the
scaler on the train rows, apply it (with the name check) to the test
rows.  The `random_state` argument is folded into the split oracle. -/
def prep_data_for_training (shuffle : SplitOracle) (fcst : List ℚ)
    (covariants : List (String × List ℚ)) (obs : List ℚ) (test_size : ℚ) :
    Except PipeError PrepOut :=
  match combine_covariants_and_fcst covariants fcst with
  | .error e => .error e
  | .ok x_info =>
    match train_test_split x_info.value obs test_size shuffle with
    | .error e => .error e
    | .ok s =>
      let r := init_scaler s.x_train x_info.names
      match apply_saved_scaler s.x_test r.1 (some x_info.names) with
      | .error e => .error e
      | .ok x_test => .ok ⟨r.2, x_test, s.y_train, s.y_test, r.1, x_info.names⟩

/-- The raw (pre-scaling) training rows a pipeline run feeds to
`init_scaler`: the split oracle's `x_train` on the combined matrix.
Used to state that the scaler depends on nothing else. -/
def trainRowsOf (shuffle : SplitOracle) (fcst : List ℚ)
    (covariants : List (String × List ℚ)) (obs : List ℚ) : List (List ℚ) :=
  match combine_covariants_and_fcst covariants fcst with
  | .error _ => []
  | .ok x_info => (shuffle x_info.value obs).x_train

/-- `prep_data_for_predicting` (data.py:236-258): combine, then apply the
externally supplied scaler (with the name check); no fitting. -/
def prep_data_for_predicting (fcst : List ℚ)
    (covariants : List (String × List ℚ)) (scaler : Scaler) :
    Except PipeError (List (List ℚ)) :=
  match combine_covariants_and_fcst covariants fcst with
  | .error e => .error e
  | .ok x_info => apply_saved_scaler x_info.value scaler (some x_info.names)

/-- `predict_bc_model` (predict.py:5-7): the body computes
`data = prep_data_for_predicting(fcst, covariants, scaler)` and then
ends; there is no return statement and the `model` argument is never
used, so a call that raises no exception returns Python `None`
(embedded as `Option.none`). -/
def predict_bc_model {Model : Type} (fcst : List ℚ)
    (covariants : List (String × List ℚ)) (model : Model) (scaler : Scaler) :
    Except PipeError (Option (List ℚ)) :=
  match prep_data_for_predicting fcst covariants scaler with
  | .error e => .error e
  | .ok _data => .ok none

/-- The `{"model": ..., "y_pred": ...}` dict returned by `run_xgboost`
and `run_linear_regression` (method.py:51, method.py:82); the fitted
model handle is opaque. -/
structure MethodResults (Model : Type) where
  model : Model
  y_pred : List ℚ
  deriving DecidableEq

/-- A value stored in the result dicts returned by `train_bc_model`
(train.py:88-92) and `start_bc` (bc.py:91). -/
inductive BundleVal (Model Metrics FI : Type) where
  | model (m : Model)
  | metrics (m : Metrics)
  | scaler (s : Scaler)
  | featureImportance (f : FI)
  deriving DecidableEq

/-- `train_bc_model` (train.py:11-92).  The external model fits
(`run_xgboost`, `run_linear_regression`), the metric computation
(`run_eval`) and the auxiliary importance ranking
(`run_feature_importance`) are oracle parameters; `run_plot` only writes
image files and is omitted.  The source dispatches on `method` with two
independent `if` statements assigning the local `results`; as the two
match strings differ, at most one fires, and when neither does the
subsequent `results["y_pred"]` read raises `NameError` — embedded as the
`Option.none` branch below. -/
def train_bc_model {Model Metrics FI : Type}
    (runXgboost : List (List ℚ) → List ℚ → List (List ℚ) → MethodResults Model)
    (runLinearRegression : List (List ℚ) → List ℚ → List (List ℚ) → MethodResults Model)
    (runEval : List ℚ → List ℚ → Metrics)
    (runFeatureImportance : List (List ℚ) → List ℚ → List String → FI)
    (shuffle : SplitOracle) (obs fcst : List ℚ)
    (covariants : List (String × List ℚ)) (test_size : ℚ) (method : String) :
    Except PipeError (List (String × BundleVal Model Metrics FI)) :=
  match prep_data_for_training shuffle fcst covariants obs test_size with
  | .error e => .error e
  | .ok td =>
    let results : Option (MethodResults Model) :=
      if method = "xgboost" then some (runXgboost td.x_train td.y_train td.x_test)
      else if method = "linear_regression" then
        some (runLinearRegression td.x_train td.y_train td.x_test)
      else none
    match results with
    | none => .error .nameError
    | some r =>
      .ok [("model", .model r.model),
           ("metrics", .metrics (runEval r.y_pred td.y_test)),
           ("scaler", .scaler td.scaler),
           ("feature_importance", .featureImportance
              (runFeatureImportance td.x_train td.y_train td.x_names))]

/-- The `x_train, x_test, y_train, y_test` record produced by the data
preparation that `start_bc` consumes. -/
structure PrepDataOut where
  x_train : List (List ℚ)
  x_test : List (List ℚ)
  y_train : List ℚ
  y_test : List ℚ
  deriving DecidableEq

/-- Modelled from the spec: `prep_data`, the no-covariate data
preparation that bc.py imports (`from process.python.data import
prep_data`, bc.py:4) but which is absent from the repository's data.py.
Per spec sections 2, 4.6 and the leakage invariant, it combines the
forecast into the feature matrix, splits it, fits the scaler on the
train rows only and applies the fitted state to the test rows. -/
def prep_data (shuffle : SplitOracle) (fcst obs : List ℚ) (test_size : ℚ) :
    Except PipeError PrepDataOut :=
  match combine_covariants_and_fcst [] fcst with
  | .error e => .error e
  | .ok x_info =>
    match train_test_split x_info.value obs test_size shuffle with
    | .error e => .error e
    | .ok s =>
      let r := init_scaler s.x_train x_info.names
      match apply_saved_scaler s.x_test r.1 (some x_info.names) with
      | .error e => .error e
      | .ok x_test => .ok ⟨r.2, x_test, s.y_train, s.y_test⟩

/-- `start_bc` (bc.py:10-91): same two-`if` string dispatch as
`train_bc_model` (with the same fallthrough `NameError` on an unknown
method), but the returned bundle contains only `model` and `metrics`
(bc.py:91). -/
def start_bc {Model Metrics FI : Type}
    (runXgboost : List (List ℚ) → List ℚ → List (List ℚ) → MethodResults Model)
    (runLinearRegression : List (List ℚ) → List ℚ → List (List ℚ) → MethodResults Model)
    (runEval : List ℚ → List ℚ → Metrics)
    (shuffle : SplitOracle) (obs fcst : List ℚ) (test_size : ℚ) (method : String) :
    Except PipeError (List (String × BundleVal Model Metrics FI)) :=
  match prep_data shuffle fcst obs test_size with
  | .error e => .error e
  | .ok data =>
    let results : Option (MethodResults Model) :=
      if method = "xgboost" then some (runXgboost data.x_train data.y_train data.x_test)
      else if method = "linear_regression" then
        some (runLinearRegression data.x_train data.y_train data.x_test)
      else none
    match results with
    | none => .error .nameError
    | some r =>
      .ok [("model", .model r.model),
           ("metrics", .metrics (runEval r.y_pred data.y_test))]

/-! ## Helper lemmas -/

theorem guardRange_ne_zero (mn mx : ℚ) : guardRange mn mx ≠ 0 := by
  unfold guardRange
  split
  · exact one_ne_zero
  · assumption

/-- Reading a list back entry by entry reproduces it. -/
theorem getD_range_map (xs : List ℚ) :
    (List.range xs.length).map (fun i => xs.getD i 0) = xs := by
  apply List.ext_getElem
  · simp
  · intro i h1 h2
    simp [List.getD_eq_getElem _ _ h2, List.getElem?_eq_getElem h2]

/-- Per-row round trip: unscaling a scaled row with the same guarded
ranges gives the row back (exactly, over `ℚ`). -/
theorem unscale_scale_row (ps : List (ℚ × ℚ)) :
    ∀ row : List ℚ, row.length ≤ ps.length →
      List.zipWith (fun p s => s * guardRange p.1 p.2 + p.1) ps
        (List.zipWith (fun p x => (x - p.1) / guardRange p.1 p.2) ps row) = row := by
  induction ps with
  | nil =>
    intro row h
    cases row with
    | nil => rfl
    | cons a as => simp at h
  | cons p ps ih =>
    intro row h
    cases row with
    | nil => rfl
    | cons x xs =>
      simp only [List.zipWith_cons_cons]
      rw [ih xs (by simpa using h)]
      have hg := guardRange_ne_zero p.1 p.2
      rw [div_mul_cancel₀ _ hg, sub_add_cancel]

/-- Reading a mapped `l ++ [a]` at position `l.length` gives `g a`. -/
theorem getD_map_append_singleton (g : List ℚ → ℚ) (d : ℚ) :
    ∀ l : List (List ℚ), ∀ a : List ℚ, ((l ++ [a]).map g).getD l.length d = g a := by
  intro l
  induction l with
  | nil => intro a; rfl
  | cons x xs ih => intro a; simp [ih a]

/-- The length test in `combine_covariants_and_fcst` finds no offender
when every covariant has the forecast's length. -/
theorem combine_find_none (covariants : List (String × List ℚ)) (fcst : List ℚ)
    (h : ∀ p ∈ covariants, p.2.length = fcst.length) :
    covariants.find? (fun c => c.2.length != fcst.length) = none := by
  rw [List.find?_eq_none]
  intro p hp
  simp [h p hp]

/-- Full characterisation of a successful `combine_covariants_and_fcst`
call: the names, the row count, the row widths and the final column. -/
theorem combine_ok_spec (covariants : List (String × List ℚ)) (fcst : List ℚ)
    (m : FeatureMatrix) (h : combine_covariants_and_fcst covariants fcst = .ok m) :
    m.names = covariants.map Prod.fst ++ ["fcst"] ∧
    m.value.length = fcst.length ∧
    (∀ row ∈ m.value, row.length = covariants.length + 1) ∧
    getColumn m.value covariants.length = fcst := by
  unfold combine_covariants_and_fcst at h
  cases hf : covariants.find? (fun c => c.2.length != fcst.length) with
  | some c => rw [hf] at h; exact absurd h (by simp)
  | none =>
    rw [hf] at h
    injection h with h
    subst h
    refine ⟨rfl, by simp [transposeRect], ?_, ?_⟩
    · intro row hrow
      simp only [transposeRect, List.mem_map] at hrow
      obtain ⟨i, _, rfl⟩ := hrow
      simp
    · unfold getColumn transposeRect
      rw [List.map_map]
      have hcol : ∀ i : Nat,
          (((covariants.map Prod.snd ++ [fcst]).map (fun col => col.getD i 0)).getD
            covariants.length 0) = fcst.getD i 0 := by
        intro i
        have hl : covariants.length = (covariants.map Prod.snd).length :=
          (List.length_map _ _).symm
        rw [hl]
        exact getD_map_append_singleton (fun col => col.getD i 0) 0
          (covariants.map Prod.snd) fcst
      calc (List.range fcst.length).map
            ((fun r => r.getD covariants.length 0) ∘
              fun i => (covariants.map Prod.snd ++ [fcst]).map fun col => col.getD i 0)
          = (List.range fcst.length).map (fun i => fcst.getD i 0) :=
            List.map_congr_left (fun i _ => hcol i)
        _ = fcst := getD_range_map fcst

/-- Folding `min` over entries all equal to `c`, starting from `c`,
stays at `c`. -/
theorem foldl_min_const (j : Nat) (c : ℚ) :
    ∀ rs : List (List ℚ), (∀ row ∈ rs, row.getD j 0 = c) →
      rs.foldl (fun a row => Min.min a (row.getD j 0)) c = c := by
  intro rs
  induction rs with
  | nil => intro _; rfl
  | cons r rs ih =>
    intro h
    simp only [List.foldl_cons]
    rw [h r (by simp), min_self]
    exact ih fun row hr => h row (by simp [hr])

/-- Folding `max` over entries all equal to `c`, starting from `c`,
stays at `c`. -/
theorem foldl_max_const (j : Nat) (c : ℚ) :
    ∀ rs : List (List ℚ), (∀ row ∈ rs, row.getD j 0 = c) →
      rs.foldl (fun a row => Max.max a (row.getD j 0)) c = c := by
  intro rs
  induction rs with
  | nil => intro _; rfl
  | cons r rs ih =>
    intro h
    simp only [List.foldl_cons]
    rw [h r (by simp), max_self]
    exact ih fun row hr => h row (by simp [hr])

/-- A column whose entries are all `c` has column minimum `c`. -/
theorem columnMin_const (rows : List (List ℚ)) (j : Nat) (c : ℚ)
    (hne : rows ≠ []) (h : ∀ row ∈ rows, row.getD j 0 = c) :
    columnMin rows j = c := by
  cases rows with
  | nil => exact absurd rfl hne
  | cons r rs =>
    simp only [columnMin]
    rw [h r (by simp)]
    exact foldl_min_const j c rs fun row hr => h row (by simp [hr])

/-- A column whose entries are all `c` has column maximum `c`. -/
theorem columnMax_const (rows : List (List ℚ)) (j : Nat) (c : ℚ)
    (hne : rows ≠ []) (h : ∀ row ∈ rows, row.getD j 0 = c) :
    columnMax rows j = c := by
  cases rows with
  | nil => exact absurd rfl hne
  | cons r rs =>
    simp only [columnMax]
    rw [h r (by simp)]
    exact foldl_max_const j c rs fun row hr => h row (by simp [hr])

/-- Entry `j` of a scaled row is the min-max transform of entry `j` of
the input row, with the guarded range as divisor. -/
theorem scaleRow_getD (mins maxs row : List ℚ) (j : Nat)
    (h1 : j < mins.length) (h2 : j < maxs.length) (h3 : j < row.length) :
    (scaleRow mins maxs row).getD j 0
      = (row.getD j 0 - mins.getD j 0) / guardRange (mins.getD j 0) (maxs.getD j 0) := by
  unfold scaleRow
  have hz : j < (mins.zip maxs).length := by
    rw [List.length_zip]
    exact lt_min h1 h2
  have hlen : j < (List.zipWith (fun p x => (x - p.1) / guardRange p.1 p.2)
      (mins.zip maxs) row).length := by
    rw [List.length_zipWith]
    exact lt_min hz h3
  rw [List.getD_eq_getElem _ _ hlen, List.getElem_zipWith,
    List.getElem_zip, List.getD_eq_getElem _ _ h1, List.getD_eq_getElem _ _ h2,
    List.getD_eq_getElem _ _ h3]

/-- The scaler a successful `prep_data_for_training` run returns is
`init_scaler` of the raw training rows of the split, with the combined
column names — and nothing else. -/
theorem prep_scaler_eq (shuffle : SplitOracle) (fcst : List ℚ)
    (covariants : List (String × List ℚ)) (obs : List ℚ) (test_size : ℚ)
    (p : PrepOut) (h : prep_data_for_training shuffle fcst covariants obs test_size = .ok p) :
    p.scaler = (init_scaler (trainRowsOf shuffle fcst covariants obs)
        (covariants.map Prod.fst ++ ["fcst"])).1 := by
  unfold prep_data_for_training train_test_split at h
  cases hc : combine_covariants_and_fcst covariants fcst with
  | error e => simp [hc] at h
  | ok xi =>
    simp only [hc] at h
    have hnames := (combine_ok_spec covariants fcst xi hc).1
    by_cases hts : 0 < test_size ∧ test_size < 1
    · rw [if_pos hts] at h
      simp only [apply_saved_scaler] at h
      rw [if_pos (show (init_scaler (shuffle xi.value obs).x_train xi.names).1.names
          = xi.names from rfl)] at h
      injection h with h
      subst h
      simp only [trainRowsOf, hc, ← hnames]
    · rw [if_neg hts] at h
      simp at h

/-! ## Claims -/

/-- **C1.** For every feature matrix with at least one row (and, over the
exact-rational idealisation of floats, no NaNs), `reverse_scaler` with no
selected column applied to the scaled values of `init_scaler`, with the
scaler state of that same call, reconstructs the matrix — exactly over
`ℚ`, hence within any floating-point tolerance; constant columns scale
through `0` and invert back to their constant. -/
theorem scaler_roundtrip_C1 (rows : List (List ℚ)) (names : List String)
    (hne : rows ≠ []) (hrect : ∀ row ∈ rows, row.length = numCols rows) :
    reverse_scaler (init_scaler rows names).2 (init_scaler rows names).1 none
      = Sum.inl rows := by
  have _hne := hne
  simp only [reverse_scaler, init_scaler, List.map_map]
  have key : ∀ row ∈ rows,
      (unscaleRow ((List.range (numCols rows)).map (columnMin rows))
          ((List.range (numCols rows)).map (columnMax rows)) ∘
        scaleRow ((List.range (numCols rows)).map (columnMin rows))
          ((List.range (numCols rows)).map (columnMax rows))) row = id row := by
    intro row hr
    show unscaleRow _ _ (scaleRow _ _ row) = row
    unfold scaleRow unscaleRow
    apply unscale_scale_row
    rw [List.length_zip]
    simp [hrect row hr]
  rw [List.map_congr_left key, List.map_id]

/-- Witness for C1 at a concrete matrix with a constant second column. -/
theorem scaler_roundtrip_C1_witness :
    reverse_scaler (init_scaler [[1, 10], [3, 10]] ["a", "b"]).2
      (init_scaler [[1, 10], [3, 10]] ["a", "b"]).1 none
      = Sum.inl [[1, 10], [3, 10]] :=
  scaler_roundtrip_C1 [[1, 10], [3, 10]] ["a", "b"] (by simp)
    (by
      intro row hr
      simp only [List.mem_cons, List.not_mem_nil, or_false] at hr
      rcases hr with rfl | rfl <;> rfl)

/-- **C6.** For covariates and a forecast of equal length `n`,
`combine_covariants_and_fcst` returns a matrix with `n` rows and
`len(covariates) + 1` columns; the names are the covariate names in
mapping order followed by `"fcst"`, and the last column is the forecast
verbatim. -/
theorem combine_shape_C6 (covariants : List (String × List ℚ)) (fcst : List ℚ)
    (m : FeatureMatrix) (h : combine_covariants_and_fcst covariants fcst = .ok m) :
    m.names = covariants.map Prod.fst ++ ["fcst"] ∧
    m.value.length = fcst.length ∧
    (∀ row ∈ m.value, row.length = covariants.length + 1) ∧
    getColumn m.value covariants.length = fcst :=
  combine_ok_spec covariants fcst m h

/-- Witness for C6 at the docstring's example input. -/
theorem combine_shape_C6_witness :
    combine_covariants_and_fcst [("x1", [1, 2, 3]), ("x2", [4, 5, 6])] [7, 8, 9]
      = .ok ⟨["x1", "x2", "fcst"], [[1, 4, 7], [2, 5, 8], [3, 6, 9]]⟩ ∧
    getColumn [[1, 4, 7], [2, 5, 8], [3, 6, 9]] 2 = [7, 8, 9] := by
  have hc : combine_covariants_and_fcst [("x1", [1, 2, 3]), ("x2", [4, 5, 6])] [7, 8, 9]
      = .ok ⟨["x1", "x2", "fcst"], [[1, 4, 7], [2, 5, 8], [3, 6, 9]]⟩ := by
    simp [combine_covariants_and_fcst, transposeRect, List.range_succ]
  exact ⟨hc, (combine_shape_C6 _ _ _ hc).2.2.2⟩

/-- **C7.** `apply_saved_scaler` with an explicit names list fails with
the schema-mismatch error whenever the matrix's ordered column names
differ from the scaler's stored names, producing no scaled values; when
they match it applies the stored min and guarded range entrywise,
without refitting. -/
theorem apply_schema_C7 (x : List (List ℚ)) (s : Scaler) (ns : List String) :
    (s.names ≠ ns → apply_saved_scaler x s (some ns) = .error .schemaMismatch) ∧
    (s.names = ns →
      apply_saved_scaler x s (some ns) = .ok (x.map (scaleRow s.min s.max)) ∧
      ∀ row ∈ x, ∀ j, j < s.min.length → j < s.max.length → j < row.length →
        (scaleRow s.min s.max row).getD j 0
          = (row.getD j 0 - s.min.getD j 0) /
              guardRange (s.min.getD j 0) (s.max.getD j 0)) := by
  constructor
  · intro hne
    simp [apply_saved_scaler, hne]
  · intro he
    refine ⟨by simp [apply_saved_scaler, he], ?_⟩
    intro row _ j h1 h2 h3
    exact scaleRow_getD s.min s.max row j h1 h2 h3

/-- Witness for C7: a reordered names list is rejected, the matching one
is scaled. -/
theorem apply_schema_C7_witness :
    apply_saved_scaler [[1, 2]] ⟨[0, 0], [2, 4], ["a", "b"]⟩ (some ["b", "a"])
      = .error .schemaMismatch ∧
    apply_saved_scaler [[1, 2]] ⟨[0, 0], [2, 4], ["a", "b"]⟩ (some ["a", "b"])
      = .ok [[1/2, 1/2]] := by
  constructor
  · exact (apply_schema_C7 [[1, 2]] ⟨[0, 0], [2, 4], ["a", "b"]⟩ ["b", "a"]).1 (by simp)
  · have h := ((apply_schema_C7 [[1, 2]] ⟨[0, 0], [2, 4], ["a", "b"]⟩ ["a", "b"]).2 rfl).1
    rw [h]
    norm_num [scaleRow, guardRange]

/-- **C8.** Scaling is total: the guarded per-column range shared by
`init_scaler`, `apply_saved_scaler` and `reverse_scaler` is never zero,
so no division by zero occurs; and a constant column of `init_scaler`'s
input maps exactly to `0` (the minimum still being subtracted), never to
an undefined value. -/
theorem scaling_total_C8 :
    (∀ mn mx : ℚ, guardRange mn mx ≠ 0) ∧
    (∀ (rows : List (List ℚ)) (names : List String) (j : Nat) (c : ℚ),
      rows ≠ [] → j < numCols rows →
      (∀ row ∈ rows, row.length = numCols rows) →
      (∀ row ∈ rows, row.getD j 0 = c) →
      ∀ srow ∈ (init_scaler rows names).2, srow.getD j 0 = 0) := by
  refine ⟨guardRange_ne_zero, ?_⟩
  intro rows names j c hne hj hrect hconst srow hsrow
  simp only [init_scaler, List.mem_map] at hsrow
  obtain ⟨row, hrow, rfl⟩ := hsrow
  rw [scaleRow_getD _ _ _ j (by simp [hj]) (by simp [hj])
    (by rw [hrect row hrow]; exact hj)]
  have hmin : ((List.range (numCols rows)).map (columnMin rows)).getD j 0 = c := by
    rw [List.getD_eq_getElem _ _ (by simp [hj]), List.getElem_map, List.getElem_range]
    exact columnMin_const rows j c hne hconst
  have hmax : ((List.range (numCols rows)).map (columnMax rows)).getD j 0 = c := by
    rw [List.getD_eq_getElem _ _ (by simp [hj]), List.getElem_map, List.getElem_range]
    exact columnMax_const rows j c hne hconst
  rw [hmin, hmax, hconst row hrow]
  simp [guardRange]

/-- Witness for C8: a nonzero guard at a degenerate column, and the
constant second column of a concrete matrix scaling to `0`. -/
theorem scaling_total_C8_witness :
    guardRange 5 5 ≠ 0 ∧
    ∀ srow ∈ (init_scaler [[1, 10], [3, 10]] ["a", "b"]).2, srow.getD 1 0 = 0 := by
  constructor
  · exact scaling_total_C8.1 5 5
  · exact scaling_total_C8.2 [[1, 10], [3, 10]] ["a", "b"] 1 10 (by simp)
      (by simp [numCols])
      (by
        intro row hr
        simp only [List.mem_cons, List.not_mem_nil, or_false] at hr
        rcases hr with rfl | rfl <;> rfl)
      (by
        intro row hr
        simp only [List.mem_cons, List.not_mem_nil, or_false] at hr
        rcases hr with rfl | rfl <;> rfl)

/-- **C10.** With the `names` argument omitted, `apply_saved_scaler`
performs no schema validation at all and scales any matrix with the
stored min and range — the very same call that is rejected as a schema
mismatch when a non-matching names list is supplied explicitly. -/
theorem apply_no_validation_C10 (x : List (List ℚ)) (s : Scaler) (ns : List String)
    (h : s.names ≠ ns) :
    apply_saved_scaler x s none = .ok (x.map (scaleRow s.min s.max)) ∧
    apply_saved_scaler x s (some ns) = .error .schemaMismatch :=
  ⟨rfl, by simp [apply_saved_scaler, h]⟩

/-- Witness for C10: the same matrix/scaler pair is scaled without names
and rejected with non-matching names. -/
theorem apply_no_validation_C10_witness :
    apply_saved_scaler [[1, 2]] ⟨[0, 0], [2, 4], ["p", "q"]⟩ none = .ok [[1/2, 1/2]] ∧
    apply_saved_scaler [[1, 2]] ⟨[0, 0], [2, 4], ["p", "q"]⟩ (some ["r", "s"])
      = .error .schemaMismatch := by
  have h := apply_no_validation_C10 [[1, 2]] ⟨[0, 0], [2, 4], ["p", "q"]⟩ ["r", "s"] (by simp)
  refine ⟨?_, h.2⟩
  rw [h.1]
  norm_num [scaleRow, guardRange]

/-- **C3.** In `prep_data_for_training` the scaler is computed from the
training rows of the split alone: two successful runs whose splits yield
identical raw training rows return scalers with identical per-column min
and max, whatever their test rows, targets or fractions; with equal
covariate names the whole scaler is identical. -/
theorem scaler_from_train_only_C3
    (sh₁ sh₂ : SplitOracle) (fcst₁ fcst₂ obs₁ obs₂ : List ℚ)
    (cov₁ cov₂ : List (String × List ℚ)) (ts₁ ts₂ : ℚ) (p₁ p₂ : PrepOut)
    (h₁ : prep_data_for_training sh₁ fcst₁ cov₁ obs₁ ts₁ = .ok p₁)
    (h₂ : prep_data_for_training sh₂ fcst₂ cov₂ obs₂ ts₂ = .ok p₂)
    (htrain : trainRowsOf sh₁ fcst₁ cov₁ obs₁ = trainRowsOf sh₂ fcst₂ cov₂ obs₂) :
    p₁.scaler.min = p₂.scaler.min ∧ p₁.scaler.max = p₂.scaler.max ∧
    (cov₁.map Prod.fst = cov₂.map Prod.fst → p₁.scaler = p₂.scaler) := by
  rw [prep_scaler_eq sh₁ fcst₁ cov₁ obs₁ ts₁ p₁ h₁,
    prep_scaler_eq sh₂ fcst₂ cov₂ obs₂ ts₂ p₂ h₂, htrain]
  refine ⟨rfl, rfl, fun hn => ?_⟩
  rw [hn]

/-- Witness for C3: two runs sharing their training rows but with
different test rows produce the same scaler. -/
theorem scaler_from_train_only_C3_witness :
    prep_data_for_training (fun _ _ => ⟨[[1, 3]], [[2, 4]], [5], [6]⟩)
        [3, 4] [("v", [1, 2])] [5, 6] (1/2)
      = .ok ⟨[[0, 0]], [[1, 1]], [5], [6], ⟨[1, 3], [1, 3], ["v", "fcst"]⟩, ["v", "fcst"]⟩ ∧
    prep_data_for_training (fun _ _ => ⟨[[1, 3]], [[3, 5]], [5], [6]⟩)
        [3, 4] [("v", [1, 2])] [5, 6] (1/2)
      = .ok ⟨[[0, 0]], [[2, 2]], [5], [6], ⟨[1, 3], [1, 3], ["v", "fcst"]⟩, ["v", "fcst"]⟩ ∧
    (⟨[1, 3], [1, 3], ["v", "fcst"]⟩ : Scaler) = ⟨[1, 3], [1, 3], ["v", "fcst"]⟩ := by
  have e1 : prep_data_for_training (fun _ _ => ⟨[[1, 3]], [[2, 4]], [5], [6]⟩)
      [3, 4] [("v", [1, 2])] [5, 6] (1/2)
      = .ok ⟨[[0, 0]], [[1, 1]], [5], [6], ⟨[1, 3], [1, 3], ["v", "fcst"]⟩, ["v", "fcst"]⟩ := by
    norm_num [prep_data_for_training, combine_covariants_and_fcst, transposeRect,
      train_test_split, init_scaler, apply_saved_scaler, numCols, columnMin, columnMax,
      scaleRow, guardRange, List.range_succ]
  have e2 : prep_data_for_training (fun _ _ => ⟨[[1, 3]], [[3, 5]], [5], [6]⟩)
      [3, 4] [("v", [1, 2])] [5, 6] (1/2)
      = .ok ⟨[[0, 0]], [[2, 2]], [5], [6], ⟨[1, 3], [1, 3], ["v", "fcst"]⟩, ["v", "fcst"]⟩ := by
    norm_num [prep_data_for_training, combine_covariants_and_fcst, transposeRect,
      train_test_split, init_scaler, apply_saved_scaler, numCols, columnMin, columnMax,
      scaleRow, guardRange, List.range_succ]
  refine ⟨e1, e2, ?_⟩
  exact (scaler_from_train_only_C3 _ _ _ _ _ _ _ _ _ _ _ _ e1 e2
    (by simp [trainRowsOf, combine_covariants_and_fcst])).2.2 rfl

/-- **C9.** The split step of `prep_data_for_training` requires a test
fraction strictly inside `(0, 1)`: with well-formed feature data, any
`test_size` outside that open interval makes the call fail with the
invalid-fraction error instead of producing a split. -/
theorem invalid_fraction_C9 (shuffle : SplitOracle) (fcst : List ℚ)
    (covariants : List (String × List ℚ)) (obs : List ℚ) (test_size : ℚ)
    (hlen : ∀ p ∈ covariants, p.2.length = fcst.length)
    (hts : ¬(0 < test_size ∧ test_size < 1)) :
    prep_data_for_training shuffle fcst covariants obs test_size
      = .error .invalidFraction := by
  unfold prep_data_for_training train_test_split
  simp only [combine_covariants_and_fcst, combine_find_none covariants fcst hlen]
  rw [if_neg hts]

/-- Witness for C9 at `test_size = 3/2`. -/
theorem invalid_fraction_C9_witness :
    prep_data_for_training (fun x y => ⟨x, [], y, []⟩) [1, 2] [("v", [3, 4])] [5, 6] (3/2)
      = .error .invalidFraction :=
  invalid_fraction_C9 _ _ _ _ _
    (by
      intro p hp
      simp only [List.mem_singleton] at hp
      subst hp
      rfl)
    (by norm_num)

/-- **C2 (amended).** A training-pipeline call (`train_bc_model` or
`start_bc`) whose method identifier is neither `"xgboost"` nor
`"linear_regression"` fails — with the `NameError` raised when the
never-assigned `results` local is read, not with a dedicated
unknown-method error — and returns no training artifact. -/
theorem unknown_method_C2 {Model Metrics FI : Type}
    (runXgb runLin : List (List ℚ) → List ℚ → List (List ℚ) → MethodResults Model)
    (runEv : List ℚ → List ℚ → Metrics)
    (runFI : List (List ℚ) → List ℚ → List String → FI)
    (shuffle : SplitOracle) (obs fcst : List ℚ)
    (covariants : List (String × List ℚ)) (test_size : ℚ) (method : String)
    (hm1 : method ≠ "xgboost") (hm2 : method ≠ "linear_regression") :
    (∀ td, prep_data_for_training shuffle fcst covariants obs test_size = .ok td →
        train_bc_model runXgb runLin runEv runFI shuffle obs fcst covariants
          test_size method = .error .nameError) ∧
    (∀ d, prep_data shuffle fcst obs test_size = .ok d →
        start_bc runXgb runLin runEv shuffle obs fcst test_size method
          = (.error .nameError :
              Except PipeError (List (String × BundleVal Model Metrics FI)))) := by
  constructor
  · intro td htd
    unfold train_bc_model
    simp only [htd]
    simp [hm1, hm2]
  · intro d hd
    unfold start_bc
    simp only [hd]
    simp [hm1, hm2]

/-- Witness for C2 (amended) at a concrete run with method `"rf"`. -/
theorem unknown_method_C2_witness :
    train_bc_model (fun _ _ _ => MethodResults.mk () []) (fun _ _ _ => ⟨(), []⟩)
        (fun _ _ => ()) (fun _ _ _ => ()) (fun x y => ⟨x, [], y, []⟩)
        [5, 6] [1, 2] [("var1", [3, 4])] (1/2) "rf"
      = (.error .nameError :
          Except PipeError (List (String × BundleVal Unit Unit Unit))) := by
  refine (unknown_method_C2 _ _ _ _ _ _ _ _ _ _ (by simp) (by simp)).1
    ⟨[[0, 0], [1, 1]], [], [5, 6], [], ⟨[3, 1], [4, 2], ["var1", "fcst"]⟩,
      ["var1", "fcst"]⟩ ?_
  norm_num [prep_data_for_training, combine_covariants_and_fcst, transposeRect,
    train_test_split, init_scaler, apply_saved_scaler, numCols, columnMin, columnMax,
    scaleRow, guardRange, List.range_succ]

/-- Counterexample to C2 as stated: at the unknown method string the
pipeline's failure is the unassigned-`results` `NameError`, which is not
a dedicated unknown-method error. -/
theorem unknown_method_counterexample_C2 :
    train_bc_model (fun _ _ _ => MethodResults.mk () []) (fun _ _ _ => ⟨(), []⟩)
        (fun _ _ => ()) (fun _ _ _ => ()) (fun x y => ⟨x, [], y, []⟩)
        [5, 6] [1, 2] [("var1", [3, 4])] (1/2) "random_forest_unsupported"
      = (.error .nameError :
          Except PipeError (List (String × BundleVal Unit Unit Unit))) ∧
    (Except.error PipeError.nameError :
        Except PipeError (List (String × BundleVal Unit Unit Unit)))
      ≠ .error .unknownMethod := by
  constructor
  · have e : prep_data_for_training (fun x y => ⟨x, [], y, []⟩) [1, 2]
        [("var1", [3, 4])] [5, 6] (1/2)
        = .ok ⟨[[0, 0], [1, 1]], [], [5, 6], [],
            ⟨[3, 1], [4, 2], ["var1", "fcst"]⟩, ["var1", "fcst"]⟩ := by
      norm_num [prep_data_for_training, combine_covariants_and_fcst, transposeRect,
        train_test_split, apply_saved_scaler, init_scaler, numCols, columnMin,
        columnMax, scaleRow, guardRange, List.range_succ]
    unfold train_bc_model
    rw [e]
    rfl
  · simp

/-- **C4 (amended).** A completed `train_bc_model` run returns exactly
the four-component bundle `{model, metrics, scaler, feature_importance}`
— the keys of the dict handed to persistence — with the run's fitted
scaler inside.  (The legacy `start_bc` path returns a two-component
bundle; see the counterexample.) -/
theorem artifact_bundle_C4 {Model Metrics FI : Type}
    (runXgb runLin : List (List ℚ) → List ℚ → List (List ℚ) → MethodResults Model)
    (runEv : List ℚ → List ℚ → Metrics)
    (runFI : List (List ℚ) → List ℚ → List String → FI)
    (shuffle : SplitOracle) (obs fcst : List ℚ)
    (covariants : List (String × List ℚ)) (test_size : ℚ) (method : String)
    (res : List (String × BundleVal Model Metrics FI))
    (h : train_bc_model runXgb runLin runEv runFI shuffle obs fcst covariants
        test_size method = .ok res) :
    res.map Prod.fst = ["model", "metrics", "scaler", "feature_importance"] ∧
    ∃ (td : PrepOut) (r : MethodResults Model),
      prep_data_for_training shuffle fcst covariants obs test_size = .ok td ∧
      res = [("model", .model r.model),
             ("metrics", .metrics (runEv r.y_pred td.y_test)),
             ("scaler", .scaler td.scaler),
             ("feature_importance",
               .featureImportance (runFI td.x_train td.y_train td.x_names))] := by
  unfold train_bc_model at h
  cases hp : prep_data_for_training shuffle fcst covariants obs test_size with
  | error e => simp [hp] at h
  | ok td =>
    simp only [hp] at h
    by_cases h1 : method = "xgboost"
    · rw [if_pos h1] at h
      injection h with h
      subst h
      exact ⟨rfl, td, runXgb td.x_train td.y_train td.x_test, rfl, rfl⟩
    · by_cases h2 : method = "linear_regression"
      · rw [if_neg h1, if_pos h2] at h
        injection h with h
        subst h
        exact ⟨rfl, td, runLin td.x_train td.y_train td.x_test, rfl, rfl⟩
      · rw [if_neg h1, if_neg h2] at h
        exact absurd h (by simp)

/-- Witness for C4 (amended): a concrete completed `train_bc_model` run
and its four bundle keys. -/
theorem artifact_bundle_C4_witness :
    train_bc_model (fun _ _ _ => MethodResults.mk () []) (fun _ _ _ => ⟨(), []⟩)
        (fun _ _ => ()) (fun _ _ _ => ()) (fun x y => ⟨x, [], y, []⟩)
        [5, 6] [1, 2] [("var1", [3, 4])] (1/2) "xgboost"
      = (.ok [("model", .model ()), ("metrics", .metrics ()),
              ("scaler", .scaler ⟨[3, 1], [4, 2], ["var1", "fcst"]⟩),
              ("feature_importance", .featureImportance ())] :
          Except PipeError (List (String × BundleVal Unit Unit Unit))) ∧
    ([("model", BundleVal.model ()), ("metrics", BundleVal.metrics ()),
      ("scaler", BundleVal.scaler ⟨[3, 1], [4, 2], ["var1", "fcst"]⟩),
      ("feature_importance", BundleVal.featureImportance ())] :
        List (String × BundleVal Unit Unit Unit)).map Prod.fst
      = ["model", "metrics", "scaler", "feature_importance"] := by
  have h : train_bc_model (fun _ _ _ => MethodResults.mk () []) (fun _ _ _ => ⟨(), []⟩)
      (fun _ _ => ()) (fun _ _ _ => ()) (fun x y => ⟨x, [], y, []⟩)
      [5, 6] [1, 2] [("var1", [3, 4])] (1/2) "xgboost"
      = (.ok [("model", .model ()), ("metrics", .metrics ()),
              ("scaler", .scaler ⟨[3, 1], [4, 2], ["var1", "fcst"]⟩),
              ("feature_importance", .featureImportance ())] :
          Except PipeError (List (String × BundleVal Unit Unit Unit))) := by
    have e : prep_data_for_training (fun x y => ⟨x, [], y, []⟩) [1, 2]
        [("var1", [3, 4])] [5, 6] (1/2)
        = .ok ⟨[[0, 0], [1, 1]], [], [5, 6], [],
            ⟨[3, 1], [4, 2], ["var1", "fcst"]⟩, ["var1", "fcst"]⟩ := by
      norm_num [prep_data_for_training, combine_covariants_and_fcst, transposeRect,
        train_test_split, apply_saved_scaler, init_scaler, numCols, columnMin,
        columnMax, scaleRow, guardRange, List.range_succ]
    unfold train_bc_model
    rw [e]
    rfl
  exact ⟨h, (artifact_bundle_C4 _ _ _ _ _ _ _ _ _ _ _ h).1⟩

/-- Counterexample to C4 as stated: a completed `start_bc` training run
returns a bundle holding only `model` and `metrics`. -/
theorem artifact_bundle_counterexample_C4 :
    start_bc (fun _ _ _ => MethodResults.mk () []) (fun _ _ _ => ⟨(), []⟩)
        (fun _ _ => ()) (fun x y => ⟨x, [], y, []⟩) [5, 6] [1, 2] (1/2) "xgboost"
      = (.ok [("model", .model ()), ("metrics", .metrics ())] :
          Except PipeError (List (String × BundleVal Unit Unit Unit))) ∧
    (["model", "metrics"] : List String)
      ≠ ["model", "metrics", "scaler", "feature_importance"] := by
  constructor
  · have e : prep_data (fun x y => ⟨x, [], y, []⟩) [1, 2] [5, 6] (1/2)
        = .ok ⟨[[0], [1]], [], [5, 6], []⟩ := by
      norm_num [prep_data, combine_covariants_and_fcst, transposeRect,
        train_test_split, apply_saved_scaler, init_scaler, numCols, columnMin,
        columnMax, scaleRow, guardRange, List.range_succ]
    unfold start_bc
    rw [e]
    rfl
  · simp

/-- **C5 (code evaluation).** `predict_bc_model` combines and scales the
features with the supplied persisted scaler, but then falls off the end
of its body: whenever it succeeds it returns Python `None`, never the
supplied model's predictions (the `model` argument is unused). -/
theorem predict_returns_none_C5 {Model : Type} (fcst : List ℚ)
    (covariants : List (String × List ℚ)) (model : Model) (scaler : Scaler)
    (r : Option (List ℚ))
    (h : predict_bc_model fcst covariants model scaler = .ok r) : r = none := by
  unfold predict_bc_model at h
  cases hp : prep_data_for_predicting fcst covariants scaler with
  | error e => simp [hp] at h
  | ok d =>
    simp only [hp] at h
    injection h with h
    exact h.symm

/-- Witness for C5: a concrete valid call completes and yields `None`,
not a prediction vector. -/
theorem predict_returns_none_C5_witness :
    predict_bc_model [1] [("var1", [2])] () ⟨[1, 2], [3, 4], ["var1", "fcst"]⟩
      = .ok none ∧ (none : Option (List ℚ)) = none := by
  have h : predict_bc_model [1] [("var1", [2])] () ⟨[1, 2], [3, 4], ["var1", "fcst"]⟩
      = .ok none := by
    norm_num [predict_bc_model, prep_data_for_predicting, combine_covariants_and_fcst,
      apply_saved_scaler, transposeRect, List.range_succ]
  exact ⟨h, predict_returns_none_C5 _ _ _ _ none h⟩

end BiasCorrection
